import Mathlib

/-!
# Verification of the membox frontend logic

A shallow embedding, in Lean 4, of the pure logic of the membox chat
application:

* the chat API route (`frontend/app/api/chat/route.ts`): cookie parsing,
  memory-context retrieval and graceful degradation, system-prompt assembly,
  model selection, and the post-turn memory write-back;
* the user-identity hook (`frontend/hooks/use-user.ts`): login with name
  normalization and deterministic id derivation;
* the chat-session store (the `useChatSessions(userId)` hook): user-filtered
  session view, current-session revalidation, message updates and deletion.

JavaScript strings are modelled as Lean `String` (lists of characters);
`new Date()` timestamps are modelled as `Nat` parameters supplied by the
caller; network calls are modelled by explicit outcome values
(`SearchOutcome`, `FetchOutcome`); `JSON.parse ∘ decodeURIComponent` for the
image-list cookie is an abstract decoder parameter (the route only uses the
decoded list, falling back to `[]` when decoding throws).
-/

/-! ## JavaScript string primitives -/

/-- The JavaScript whitespace class (`\s`, also used by `String.prototype.trim`):
space, tab, LF, VT, FF, CR, NBSP, and the Unicode space separators. -/
def isJsWs (c : Char) : Bool :=
  c == ' ' || c == '\t' || c == '\n' || c == Char.ofNat 0x0b ||
  c == Char.ofNat 0x0c || c == '\r' || c == Char.ofNat 0xa0 ||
  c == Char.ofNat 0x1680 || (0x2000 ≤ c.toNat && c.toNat ≤ 0x200a) ||
  c == Char.ofNat 0x2028 || c == Char.ofNat 0x2029 || c == Char.ofNat 0x202f ||
  c == Char.ofNat 0x205f || c == Char.ofNat 0x3000 || c == Char.ofNat 0xfeff

/-- `trimChars l` drops leading and trailing JavaScript whitespace. -/
def trimChars (l : List Char) : List Char :=
  ((l.dropWhile isJsWs).reverse.dropWhile isJsWs).reverse

/-- `String.prototype.trim()`. -/
def jsTrim (s : String) : String := ⟨trimChars s.data⟩

/-- `String.prototype.toLowerCase()` (restricted to the ASCII case mapping,
which is all the identifiers in this code base use). -/
def jsLower (s : String) : String := ⟨s.data.map Char.toLower⟩

/-- `replace(/\s+/g, "_")` on a character list: each maximal run of
whitespace becomes a single underscore.  The flag records whether the
previous character was part of a whitespace run. -/
def wsRunsToUnderscore : List Char → Bool → List Char
  | [], _ => []
  | c :: cs, inRun =>
    if isJsWs c then
      if inRun then wsRunsToUnderscore cs true
      else '_' :: wsRunsToUnderscore cs true
    else c :: wsRunsToUnderscore cs false

/-- `s.replace(/\s+/g, "_")`. -/
def jsUnderscoreWs (s : String) : String := ⟨wsRunsToUnderscore s.data false⟩

/-- `hasSubList pat s` holds when `pat` occurs as a contiguous sublist of
`s` (the substring test backing the regex searches). -/
def hasSubList (pat : List Char) : List Char → Bool
  | [] => pat.isEmpty
  | c :: cs => pat.isPrefixOf (c :: cs) || hasSubList pat cs

/-- The regex search `cookies.match(/key=([^;]+)/)`: scan for the first
position where the literal `key` matches and is followed by at least one
non-`;` character; the capture is the maximal run of non-`;` characters.
A position where the run would be empty fails (`+` needs one character)
and the scan resumes one character further, exactly as a regex engine
backtracks. -/
def cookieMatch (key : List Char) : List Char → Option (List Char)
  | [] => none
  | c :: cs =>
    if key.isPrefixOf (c :: cs) then
      let cap := ((c :: cs).drop key.length).takeWhile (fun ch => !(ch == ';'))
      if cap.isEmpty then cookieMatch key cs else some cap
    else cookieMatch key cs

/-! ## Chat route (`frontend/app/api/chat/route.ts`) -/

/-- One entry of `experimental_attachments`. -/
structure Attachment where
  url : String
  contentType : Option String
  name : Option String
deriving DecidableEq

/-- A part of a `UIMessage`: the route only distinguishes `type === 'text'`
(with its `text` field) from everything else; file parts carry a URL. -/
inductive MsgPart where
  | text (content : String)
  | file (url : String)
  | other (ptype : String)
deriving DecidableEq

/-- A `UIMessage` as consumed by the route. -/
structure UIMessage where
  role : String
  parts : List MsgPart
  experimental_attachments : List Attachment := []
deriving DecidableEq

/-- The request: the `cookie` header (absent modelled as `none`,
`req.headers.get('cookie') || ''` turns it into `""`) and the parsed
`messages` body. -/
structure ChatRequest where
  cookie : Option String
  messages : List UIMessage
deriving DecidableEq

/-- `p.type === 'text' ? p.text : undefined`. -/
def partText : MsgPart → Option String
  | .text s => some s
  | _ => none

/-- `p.type === 'text'`. -/
def partIsText (p : MsgPart) : Bool := (partText p).isSome

/-- `parts.find((p) => p.type === 'text')?.text`. -/
def firstTextOf (parts : List MsgPart) : Option String :=
  (parts.find? partIsText).bind partText

/-- `messages.at(-1)?.parts?.find((p) => p.type === 'text')?.text ?? ''`. -/
def lastMessageText (req : ChatRequest) : String :=
  match req.messages.getLast? with
  | some m => (firstTextOf m.parts).getD ""
  | none => ""

/-- `cookies.match(/membox_user_id=([^;]+)/)?.[1] ?? 'default_user'`. -/
def effectiveUserId (req : ChatRequest) : String :=
  match cookieMatch "membox_user_id=".data (req.cookie.getD "").data with
  | some cap => ⟨cap⟩
  | none => "default_user"

/-- `String.prototype.startsWith`, character by character. -/
def strStartsWith (s pre : String) : Bool := pre.data.isPrefixOf s.data

/-- `a.contentType?.startsWith('image/')`. -/
def attachmentIsImage (a : Attachment) : Bool :=
  match a.contentType with
  | some ct => strStartsWith ct "image/"
  | none => false

/-- The image URLs among the last message's attachments. -/
def attachmentImages (req : ChatRequest) : List String :=
  match req.messages.getLast? with
  | some m => (m.experimental_attachments.filter attachmentIsImage).map Attachment.url
  | none => []

/-- The image URLs carried by the `membox_images` cookie.  `decode` stands
for `JSON.parse(decodeURIComponent(·))`; a decoding failure (the `catch`
branch) yields `[]`. -/
def imageUrlsFromCookie (decode : String → Option (List String))
    (req : ChatRequest) : List String :=
  match cookieMatch "membox_images=".data (req.cookie.getD "").data with
  | some raw => (decode ⟨raw⟩).getD []
  | none => []

/-- `imageUrlsFromCookie.length > 0 ? imageUrlsFromCookie : attachmentImages`. -/
def lastMessageImages (decode : String → Option (List String))
    (req : ChatRequest) : List String :=
  let fromCookie := imageUrlsFromCookie decode req
  if fromCookie.length > 0 then fromCookie else attachmentImages req

/-- `const hasImages = lastMessageImages.length > 0`. -/
def hasImages (decode : String → Option (List String)) (req : ChatRequest) : Bool :=
  (lastMessageImages decode req).length > 0

/-- `const modelName = hasImages ? 'qwen-vl-plus' : 'qwen-plus'`. -/
def chatModelName (decode : String → Option (List String)) (req : ChatRequest) : String :=
  if hasImages decode req then "qwen-vl-plus" else "qwen-plus"

/-- Outcome of the `fetch` to `/api/memory/search`: a rejected promise
(network error) or a response with its `ok` flag and parsed JSON fields
`profile_content` and `results` (each result reduced to its `memory` text). -/
inductive SearchOutcome where
  | netError (msg : String)
  | httpResponse (ok : Bool) (profile_content : Option String) (results : List String)
deriving DecidableEq

/-- The search failed: network error, or a non-success status. -/
def searchIsFailure : SearchOutcome → Bool
  | .netError _ => true
  | .httpResponse ok _ _ => !ok

/-- The `memoryContext` string accumulated by the route.  A thrown error is
silently ignored and a non-`ok` response contributes nothing; `if
(searchData.profile_content)` is JavaScript truthiness, false on `undefined`
and on the empty string; `results?.length > 0` guards the bullet list. -/
def memoryContext : SearchOutcome → String
  | .netError _ => ""
  | .httpResponse ok profile results =>
    if !ok then ""
    else
      (match profile with
       | some p => if p = "" then "" else "\nUser Profile: " ++ p
       | none => "") ++
      (if results.length > 0 then
        "\n\nRelated Memories:" ++ String.join (results.map (fun m => "\n- " ++ m))
       else "")

/-- The fixed head of the system-prompt template. -/
def systemPromptHead : String :=
  "You are MemBox, an intelligent memory assistant. You can:\n- Remember information shared by users (automatic extraction and saving)\n- Provide personalized answers based on memories\n- Confirm recording when users say \"remember\" or share important information\n\n"

/-- The fixed tail of the system-prompt template. -/
def systemPromptTail : String :=
  "\n\nPlease provide personalized, memory-aware answers based on the above information. Be natural and friendly."

/-- The template literal building `systemPrompt`: the context block
`Here is background information related to the current conversation:` is
interpolated only when `memoryContext` is non-empty. -/
def systemPrompt (ctx : String) : String :=
  systemPromptHead ++
    (if ctx = "" then ""
     else "Here is background information related to the current conversation:" ++ ctx) ++
    systemPromptTail

/-- A content piece of a multimodal model message. -/
inductive ContentPiece where
  | text (content : String)
  | image (url : String)
deriving DecidableEq

/-- Content of a message sent to the model: a plain string or a
text-plus-images list. -/
inductive ModelContent where
  | plain (content : String)
  | multimodal (content : List ContentPiece)
deriving DecidableEq

/-- One message of the `modelMessages` array. -/
structure ModelMessage where
  role : String
  content : ModelContent
deriving DecidableEq

/-- One iteration of the `modelMessages` loop body: `imgs` is
`lastMessageImages`, `isLast` is `i === messages.length - 1`; roles other
than `user`/`assistant` contribute nothing. -/
def buildModelMessage (imgs : List String) (isLast : Bool) (m : UIMessage) :
    List ModelMessage :=
  let textContent := (firstTextOf m.parts).getD ""
  let imageUrls := if isLast && m.role == "user" then imgs else []
  if m.role == "user" then
    if imageUrls.length > 0 then
      [⟨"user", .multimodal (.text (if textContent = "" then "Please describe these images" else textContent) ::
        imageUrls.map ContentPiece.image)⟩]
    else [⟨"user", .plain textContent⟩]
  else if m.role == "assistant" then [⟨"assistant", .plain textContent⟩]
  else []

/-- The `modelMessages` loop over the message list; only the final element
has `isLastMessage` set. -/
def buildModelMessagesAux (imgs : List String) : List UIMessage → List ModelMessage
  | [] => []
  | [m] => buildModelMessage imgs true m
  | m :: m' :: rest => buildModelMessage imgs false m ++ buildModelMessagesAux imgs (m' :: rest)

/-- The full `modelMessages` array of a request. -/
def buildModelMessages (decode : String → Option (List String))
    (req : ChatRequest) : List ModelMessage :=
  buildModelMessagesAux (lastMessageImages decode req) req.messages

/-- The `streamText` invocation: model variant, system prompt, messages. -/
structure ModelCall where
  model : String
  system : String
  messages : List ModelMessage
deriving DecidableEq

/-- The JSON body of the `/api/memory/search` call. -/
structure SearchBody where
  query : String
  user_id : String
  limit : Nat
deriving DecidableEq

/-- A `{role, content}` pair of the write-back payload. -/
structure RoleContent where
  role : String
  content : String
deriving DecidableEq

/-- The JSON body of the `/api/memory/add` write-back: exactly the message
pair and the user id, no memory-type classification field. -/
structure WritebackPayload where
  messages : List RoleContent
  user_id : String
deriving DecidableEq

/-- Outcome of the write-back `fetch`: rejected promise or an HTTP response
(any status; `onFinish` never reads `res.ok`). -/
inductive FetchOutcome where
  | netError (msg : String)
  | httpResponse (status : Nat)
deriving DecidableEq

/-- `fetch` as seen by `await`: a network error rejects, any HTTP response
resolves. -/
def fetchResolve : FetchOutcome → Except String Unit
  | .netError m => .error m
  | .httpResponse _ => .ok ()

/-- The `conversationToSave` payload built in `onFinish({ text })`:
`lastMessageText || 'User shared images'` substitutes a placeholder for an
empty user text. -/
def onFinishPayload (req : ChatRequest) (text : String) : WritebackPayload :=
  let t := lastMessageText req
  { messages := [⟨"user", if t = "" then "User shared images" else t⟩,
                 ⟨"assistant", text⟩],
    user_id := effectiveUserId req }

/-- The `try { await fetch(...) } catch { }` around the write-back: every
outcome, success or failure, returns normally. -/
def onFinishRun (wb : FetchOutcome) : Except String Unit :=
  match fetchResolve wb with
  | .error _ => .ok ()
  | .ok _ => .ok ()

/-- Everything one request through the route produces: the search request
it issues, the model call, the streamed reply delivered to the client, the
write-back payload sent on completion, and the write-back result. -/
structure TurnOutcome where
  searchRequest : SearchBody
  call : ModelCall
  responseText : String
  writeback : WritebackPayload
  writebackResult : Except String Unit

/-- The `POST` handler as a pure function of the request, the search
outcome, the completed model reply text, and the write-back outcome. -/
def chatTurn (decode : String → Option (List String)) (req : ChatRequest)
    (search : SearchOutcome) (reply : String) (wb : FetchOutcome) : TurnOutcome :=
  { searchRequest := ⟨lastMessageText req, effectiveUserId req, 5⟩,
    call := ⟨chatModelName decode req, systemPrompt (memoryContext search),
             buildModelMessages decode req⟩,
    responseText := reply,
    writeback := onFinishPayload req reply,
    writebackResult := onFinishRun wb }

/-! ## User identity store (`frontend/hooks/use-user.ts`) -/

/-- A user record (the `createdAt` Date is a `Nat` timestamp). -/
structure User where
  id : String
  name : String
  createdAt : Nat
deriving DecidableEq

/-- The identity state: the in-memory `users` list and `currentUser`, their
localStorage mirrors (`membox_users`, `membox_current_user`), and the
`membox_user_id` cookie. -/
structure UserState where
  users : List User
  persistedUsers : List User
  currentUser : Option User
  persistedCurrentUserId : Option String
  cookie : Option String
deriving DecidableEq

/-- `saveUsers`: write the list to localStorage and to state. -/
def saveUsers (newUsers : List User) (s : UserState) : UserState :=
  { s with users := newUsers, persistedUsers := newUsers }

/-- `login(username)` at timestamp `now`: trim the name, bail out on an
empty result, reuse a case-insensitive name match, otherwise create a user
whose id is the lowercased name with whitespace runs replaced by
underscores; record the id as current in localStorage and in the cookie. -/
def login (now : Nat) (username : String) (s : UserState) : Option User × UserState :=
  let normalizedName := jsTrim username
  if normalizedName = "" then (none, s)
  else
    match s.users.find? (fun u => jsLower u.name == jsLower normalizedName) with
    | some u =>
      (some u, { s with persistedCurrentUserId := some u.id,
                        currentUser := some u,
                        cookie := some u.id })
    | none =>
      let u : User := { id := jsUnderscoreWs (jsLower normalizedName),
                        name := normalizedName, createdAt := now }
      let s1 := saveUsers (s.users ++ [u]) s
      (some u, { s1 with persistedCurrentUserId := some u.id,
                         currentUser := some u,
                         cookie := some u.id })

/-! ## Chat session store (the `useChatSessions(userId)` hook) -/

/-- A chat session; Dates are `Nat` timestamps. -/
structure ChatSession where
  id : String
  userId : String
  title : String
  preview : String
  messages : List UIMessage
  createdAt : Nat
  updatedAt : Nat
deriving DecidableEq

/-- The store state: the global session list and the current session id. -/
structure SessionStore where
  allSessions : List ChatSession
  currentSessionId : Option String
deriving DecidableEq

/-- `generateTitle`: text of the first user message, truncated to 30
characters with an ellipsis; `"New Chat"` when there is none. -/
def generateTitle (messages : List UIMessage) : String :=
  match messages.find? (fun m => m.role == "user") with
  | none => "New Chat"
  | some m =>
    match (m.parts.find? partIsText).bind partText with
    | some t => if t.length > 30 then t.take 30 ++ "..." else t
    | none => "New Chat"

/-- `generatePreview`: text of the last message, truncated to 50 characters
with an ellipsis; `"No messages"` for an empty list or a textless message. -/
def generatePreview (messages : List UIMessage) : String :=
  match messages.getLast? with
  | none => "No messages"
  | some m =>
    match (m.parts.find? partIsText).bind partText with
    | some t => if t.length > 50 then t.take 50 ++ "..." else t
    | none => "No messages"

/-- The user-filtered view `sessions` exposed to the UI: empty without a
user, else the sessions whose `userId` matches. -/
def sessionsView (userId : Option String) (st : SessionStore) : List ChatSession :=
  match userId with
  | none => []
  | some uid => st.allSessions.filter (fun s => s.userId == uid)

/-- JavaScript `x?.id || null`: an absent or empty id collapses to null. -/
def jsOrNull (o : Option String) : Option String :=
  match o with
  | some s => if s = "" then none else some s
  | none => none

/-- The user-change effect: when loaded and a (truthy) user id is present,
re-validate a (truthy) `currentSessionId` — if the session is gone or owned
by someone else, fall back to the first session of this user, or null. -/
def revalidateCurrentSession (userId : Option String) (isLoaded : Bool)
    (st : SessionStore) : SessionStore :=
  if !isLoaded then st
  else
    match userId with
    | none => st
    | some uid =>
      if uid = "" then st
      else
        match st.currentSessionId with
        | none => st
        | some cid =>
          if cid = "" then st
          else
            let fallback :=
              jsOrNull (((st.allSessions.filter (fun s => s.userId == uid)).head?).map ChatSession.id)
            match st.allSessions.find? (fun s => s.id == cid) with
            | some cs =>
              if cs.userId == uid then st
              else { st with currentSessionId := fallback }
            | none => { st with currentSessionId := fallback }

/-- `createSession()`: null without a user; otherwise prepend a fresh
session (`nanoid()` modelled by the `newId` parameter) and make it current. -/
def createSession (userId : Option String) (newId : String) (now : Nat)
    (st : SessionStore) : Option ChatSession × SessionStore :=
  match userId with
  | none => (none, st)
  | some uid =>
    let ns : ChatSession :=
      { id := newId, userId := uid, title := "New Chat", preview := "No messages",
        messages := [], createdAt := now, updatedAt := now }
    (some ns, { allSessions := ns :: st.allSessions, currentSessionId := some ns.id })

/-- The per-session body of `updateSessionMessages`' map: an unrelated
session is returned unchanged; the matching one gets the new messages, a
title recomputed only for a non-empty list, a recomputed preview, and the
call's timestamp. -/
def applySessionUpdate (sid : String) (msgs : List UIMessage) (now : Nat)
    (session : ChatSession) : ChatSession :=
  if session.id ≠ sid then session
  else
    { session with
      messages := msgs,
      title := if msgs.length > 0 then generateTitle msgs else session.title,
      preview := generatePreview msgs,
      updatedAt := now }

/-- `updateSessionMessages(sessionId, messages)` at timestamp `now`. -/
def updateSessionMessages (sid : String) (msgs : List UIMessage) (now : Nat)
    (st : SessionStore) : SessionStore :=
  { st with allSessions := st.allSessions.map (applySessionUpdate sid msgs now) }

/-- `deleteSession(sessionId)`: filter the session out of the global list;
when it was current, select the first remaining session of the active
user's view (computed from the pre-delete state, as the closed-over
`sessions` memo is), or null. -/
def deleteSession (userId : Option String) (sid : String)
    (st : SessionStore) : SessionStore :=
  let newAll := st.allSessions.filter (fun s => !(s.id == sid))
  if st.currentSessionId == some sid then
    let remaining := (sessionsView userId st).filter (fun s => !(s.id == sid))
    { allSessions := newAll,
      currentSessionId := jsOrNull (remaining.head?.map ChatSession.id) }
  else
    { st with allSessions := newAll }

/-- The invariant of claims C6 and C7: the current session id is null or
names a stored session owned by the active user. -/
def currentSessionValid (uid : String) (st : SessionStore) : Prop :=
  st.currentSessionId = none ∨
    ∃ s, s ∈ st.allSessions ∧ st.currentSessionId = some s.id ∧ s.userId = uid

/-! ## Helper lemmas -/

/-- If the literal key occurs nowhere in the cookie string, the regex
search fails. -/
theorem cookieMatch_eq_none {key s : List Char} (h : hasSubList key s = false) :
    cookieMatch key s = none := by
  induction s with
  | nil => rfl
  | cons c cs ih =>
    rw [hasSubList, Bool.or_eq_false_iff] at h
    rw [cookieMatch, if_neg (by simp [h.1]), ih h.2]

/-- `toLowerCase` of a non-empty string is non-empty. -/
theorem jsLower_eq_empty {s : String} (h : jsLower s = "") : s = "" := by
  apply String.ext
  have h1 := congrArg String.data h
  simpa [jsLower] using h1

/-- A list's optional head is one of its members. -/
theorem mem_of_head?_eq_some {α : Type} {l : List α} {a : α}
    (h : l.head? = some a) : a ∈ l := by
  cases l with
  | nil => simp at h
  | cons x xs => simp at h; simp [h]

/-! ## Concrete inputs used by witnesses and counterexamples -/

/-- A turn that attaches an image but carries no text part. -/
def imageOnlyRequest : ChatRequest :=
  { cookie := none,
    messages := [{ role := "user", parts := [MsgPart.file "https://example.com/cat.png"] }] }

/-- The spec's end-to-end example: Alice, logged in, says hello. -/
def aliceRequest : ChatRequest :=
  { cookie := some "membox_user_id=alice",
    messages := [{ role := "user", parts := [MsgPart.text "My name is Alice"] }] }

/-- A turn with an `image/png` attachment on its last message. -/
def attachmentRequest : ChatRequest :=
  { cookie := none,
    messages := [{ role := "user", parts := [MsgPart.text "look at this"],
                   experimental_attachments :=
                     [⟨"https://example.com/a.png", some "image/png", none⟩] }] }

/-! ## C1 — memory-search failure degrades gracefully -/

set_option maxRecDepth 4000 in
/-- C1: for every chat request whose memory search fails (network error or
non-ok status), the turn still completes — the model is invoked and the
reply is streamed back — and the system prompt is the bare template, with
no `Here is background information` block, no profile line, and no memory
bullets. -/
theorem search_failure_degrades_gracefully
    (decode : String → Option (List String)) (req : ChatRequest)
    (search : SearchOutcome) (reply : String) (wb : FetchOutcome)
    (hfail : searchIsFailure search = true) :
    (chatTurn decode req search reply wb).responseText = reply ∧
    (chatTurn decode req search reply wb).call.system = systemPrompt "" ∧
    hasSubList "Here is background information".data
      ((chatTurn decode req search reply wb).call.system).data = false ∧
    hasSubList "User Profile:".data
      ((chatTurn decode req search reply wb).call.system).data = false ∧
    hasSubList "Related Memories:".data
      ((chatTurn decode req search reply wb).call.system).data = false := by
  have hctx : memoryContext search = "" := by
    cases search with
    | netError m => rfl
    | httpResponse ok profile results =>
      rw [searchIsFailure] at hfail
      simp only [memoryContext]
      rw [if_pos hfail]
  have hsys : (chatTurn decode req search reply wb).call.system = systemPrompt "" := by
    show systemPrompt (memoryContext search) = systemPrompt ""
    rw [hctx]
  refine ⟨rfl, hsys, ?_, ?_, ?_⟩ <;> rw [hsys] <;> decide

/-- Witness for C1 at a concrete failing search. -/
theorem search_failure_witness :
    (chatTurn (fun _ => none) aliceRequest (.netError "ECONNREFUSED") "Hello!"
      (.httpResponse 200)).call.system = systemPrompt "" :=
  (search_failure_degrades_gracefully (fun _ => none) aliceRequest
    (.netError "ECONNREFUSED") "Hello!" (.httpResponse 200) (by decide)).2.1

/-! ## C2 — the write-back payload -/

/-- C2 counterexample: on a turn whose last message has no text, the
write-back's user content is the placeholder `User shared images`, not the
(empty) last user message text. -/
theorem writeback_not_always_last_text :
    lastMessageText imageOnlyRequest = "" ∧
    (onFinishPayload imageOnlyRequest "A cat.").messages ≠
      [⟨"user", lastMessageText imageOnlyRequest⟩, ⟨"assistant", "A cat."⟩] := by
  decide

/-- C2 (amended): the single write-back of a completed turn carries exactly
the two-message pair and the acting user id; the user content is the last
message's text, or the placeholder `User shared images` when that text is
empty. -/
theorem writeback_payload_spec
    (decode : String → Option (List String)) (req : ChatRequest)
    (search : SearchOutcome) (reply : String) (wb : FetchOutcome) :
    (chatTurn decode req search reply wb).writeback.user_id = effectiveUserId req ∧
    (lastMessageText req ≠ "" →
      (chatTurn decode req search reply wb).writeback =
        ⟨[⟨"user", lastMessageText req⟩, ⟨"assistant", reply⟩], effectiveUserId req⟩) ∧
    (lastMessageText req = "" →
      (chatTurn decode req search reply wb).writeback =
        ⟨[⟨"user", "User shared images"⟩, ⟨"assistant", reply⟩], effectiveUserId req⟩) := by
  refine ⟨rfl, ?_, ?_⟩ <;> intro h <;> simp [chatTurn, onFinishPayload, h]

/-- Witness for C2 on the spec's Alice example. -/
theorem writeback_payload_witness :
    (chatTurn (fun _ => none) aliceRequest (.httpResponse true none [])
      "Nice to meet you, Alice!" (.httpResponse 200)).writeback =
      ⟨[⟨"user", "My name is Alice"⟩, ⟨"assistant", "Nice to meet you, Alice!"⟩],
       "alice"⟩ := by
  have h := (writeback_payload_spec (fun _ => none) aliceRequest
    (.httpResponse true none []) "Nice to meet you, Alice!" (.httpResponse 200)).2.1
    (by decide)
  rw [h]; decide

/-! ## C3 — write-back failures are swallowed -/

/-- C3: whatever the write-back fetch does — network error or any HTTP
status — `onFinish` returns normally, and the delivered chat response
(reply text, model call, payload) is unaffected by the outcome. -/
theorem writeback_failure_swallowed
    (decode : String → Option (List String)) (req : ChatRequest)
    (search : SearchOutcome) (reply : String) (wb wb' : FetchOutcome) :
    (chatTurn decode req search reply wb).writebackResult = Except.ok () ∧
    (chatTurn decode req search reply wb).responseText = reply ∧
    (chatTurn decode req search reply wb).call =
      (chatTurn decode req search reply wb').call ∧
    (chatTurn decode req search reply wb).writeback =
      (chatTurn decode req search reply wb').writeback := by
  refine ⟨?_, rfl, rfl, rfl⟩
  show onFinishRun wb = Except.ok ()
  cases wb <;> rfl

/-! ## C4 — model selection is a pure function of the current turn -/

/-- C4: the vision model `qwen-vl-plus` is selected iff the current turn
carries image references (from the `membox_images` cookie or the last
message's attachments), `qwen-plus` otherwise; requests agreeing on the
cookie header and the last message select the same model, so earlier
turns' images are irrelevant. -/
theorem model_selection_current_turn
    (decode : String → Option (List String)) (req : ChatRequest) :
    (chatModelName decode req = "qwen-vl-plus" ↔ lastMessageImages decode req ≠ []) ∧
    (chatModelName decode req = "qwen-plus" ↔ lastMessageImages decode req = []) ∧
    (∀ req' : ChatRequest, req'.cookie = req.cookie →
      req'.messages.getLast? = req.messages.getLast? →
      chatModelName decode req' = chatModelName decode req) := by
  have hvl : ∀ b : Bool,
      ((if b then "qwen-vl-plus" else "qwen-plus") = "qwen-vl-plus") ↔ b = true := by
    intro b; cases b <;> decide
  have hpl : ∀ b : Bool,
      ((if b then "qwen-vl-plus" else "qwen-plus") = "qwen-plus") ↔ b = false := by
    intro b; cases b <;> decide
  refine ⟨?_, ?_, ?_⟩
  · rw [chatModelName, hvl]
    simp [hasImages, List.length_pos]
  · rw [chatModelName, hpl]
    simp [hasImages]
  · intro req' hc hl
    have himg : lastMessageImages decode req' = lastMessageImages decode req := by
      simp only [lastMessageImages, imageUrlsFromCookie, attachmentImages, hc, hl]
    simp only [chatModelName, hasImages, himg]

/-- Witness for C4: an attachment turn selects the vision model, a
text-only turn the text model. -/
theorem model_selection_witness :
    chatModelName (fun _ => none) attachmentRequest = "qwen-vl-plus" ∧
    chatModelName (fun _ => none) aliceRequest = "qwen-plus" :=
  ⟨(model_selection_current_turn (fun _ => none) attachmentRequest).1.mpr (by decide),
   (model_selection_current_turn (fun _ => none) aliceRequest).2.1.mpr (by decide)⟩

/-! ## C9 — missing user cookie falls back to `default_user` -/

/-- C9: a request whose cookie header never mentions `membox_user_id=` is
not rejected: the turn runs and both the memory-search body and the
write-back payload carry the fallback user id `default_user`. -/
theorem missing_user_cookie_defaults
    (decode : String → Option (List String)) (req : ChatRequest)
    (search : SearchOutcome) (reply : String) (wb : FetchOutcome)
    (h : hasSubList "membox_user_id=".data (req.cookie.getD "").data = false) :
    effectiveUserId req = "default_user" ∧
    (chatTurn decode req search reply wb).searchRequest.user_id = "default_user" ∧
    (chatTurn decode req search reply wb).writeback.user_id = "default_user" ∧
    (chatTurn decode req search reply wb).responseText = reply := by
  have h1 : effectiveUserId req = "default_user" := by
    rw [effectiveUserId, cookieMatch_eq_none h]
  exact ⟨h1, h1, h1, rfl⟩

/-- Witness for C9: a request with no cookie header at all. -/
theorem missing_user_cookie_witness :
    (chatTurn (fun _ => none) imageOnlyRequest (.httpResponse true none [])
      "A cat." (.httpResponse 200)).searchRequest.user_id = "default_user" :=
  (missing_user_cookie_defaults (fun _ => none) imageOnlyRequest
    (.httpResponse true none []) "A cat." (.httpResponse 200) (by decide)).2.1

/-! ## C5/C10 — login normalization -/

/-- Reduction of `login` when the trimmed name matches an existing user. -/
theorem login_found (now : Nat) (n : String) (s : UserState) (u : User)
    (hne : jsTrim n ≠ "")
    (hfind : s.users.find? (fun v => jsLower v.name == jsLower (jsTrim n)) = some u) :
    login now n s = (some u, { s with persistedCurrentUserId := some u.id,
                                      currentUser := some u, cookie := some u.id }) := by
  simp only [login, if_neg hne, hfind]

/-- Reduction of `login` when no existing user matches: a record with the
deterministic id — lowercased, trimmed, whitespace runs to underscores —
is appended and made current. -/
theorem login_created (now : Nat) (n : String) (s : UserState)
    (hne : jsTrim n ≠ "")
    (hfind : s.users.find? (fun v => jsLower v.name == jsLower (jsTrim n)) = none) :
    login now n s =
      (some ⟨jsUnderscoreWs (jsLower (jsTrim n)), jsTrim n, now⟩,
       { users := s.users ++ [⟨jsUnderscoreWs (jsLower (jsTrim n)), jsTrim n, now⟩],
         persistedUsers := s.users ++ [⟨jsUnderscoreWs (jsLower (jsTrim n)), jsTrim n, now⟩],
         currentUser := some ⟨jsUnderscoreWs (jsLower (jsTrim n)), jsTrim n, now⟩,
         persistedCurrentUserId := some (jsUnderscoreWs (jsLower (jsTrim n))),
         cookie := some (jsUnderscoreWs (jsLower (jsTrim n))) }) := by
  simp only [login, if_neg hne, hfind, saveUsers]

/-- C5: two usernames that agree after trimming and lowercasing resolve to
the same user id from any state; a second login with the equivalent name
leaves the user list exactly as the first login left it (no second
record); and a freshly created id is the deterministic derivation
`jsUnderscoreWs (jsLower (jsTrim name))`. -/
theorem login_case_whitespace_insensitive
    (s : UserState) (n₁ n₂ : String) (t₁ t₂ : Nat)
    (hEq : jsLower (jsTrim n₁) = jsLower (jsTrim n₂))
    (hne : jsTrim n₁ ≠ "") :
    (login t₁ n₁ s).1.map User.id = (login t₂ n₂ s).1.map User.id ∧
    (login t₂ n₂ (login t₁ n₁ s).2).2.users = (login t₁ n₁ s).2.users ∧
    (s.users.find? (fun u => jsLower u.name == jsLower (jsTrim n₁)) = none →
      (login t₁ n₁ s).1 = some ⟨jsUnderscoreWs (jsLower (jsTrim n₁)), jsTrim n₁, t₁⟩) := by
  have hne₂ : jsTrim n₂ ≠ "" := fun h0 => hne (jsLower_eq_empty (by rw [hEq, h0]; rfl))
  have hp : (fun u : User => jsLower u.name == jsLower (jsTrim n₂))
          = (fun u : User => jsLower u.name == jsLower (jsTrim n₁)) := by
    funext u; rw [hEq]
  cases hfind : s.users.find? (fun u => jsLower u.name == jsLower (jsTrim n₁)) with
  | some u =>
    have e₁ := login_found t₁ n₁ s u hne hfind
    have hfind₂ : s.users.find? (fun u => jsLower u.name == jsLower (jsTrim n₂)) = some u := by
      rw [hp]; exact hfind
    have e₂ := login_found t₂ n₂ s u hne₂ hfind₂
    have hfind₃ : (login t₁ n₁ s).2.users.find?
        (fun u => jsLower u.name == jsLower (jsTrim n₂)) = some u := by
      rw [e₁]
      show s.users.find? (fun u => jsLower u.name == jsLower (jsTrim n₂)) = some u
      exact hfind₂
    have e₃ := login_found t₂ n₂ (login t₁ n₁ s).2 u hne₂ hfind₃
    refine ⟨by rw [e₁, e₂], by rw [e₃], ?_⟩
    intro h0
    exact absurd h0 (by simp)
  | none =>
    have e₁ := login_created t₁ n₁ s hne hfind
    have hfind₂ : s.users.find? (fun u => jsLower u.name == jsLower (jsTrim n₂)) = none := by
      rw [hp]; exact hfind
    have e₂ := login_created t₂ n₂ s hne₂ hfind₂
    have hfind₃ : (login t₁ n₁ s).2.users.find?
        (fun u => jsLower u.name == jsLower (jsTrim n₂)) =
        some ⟨jsUnderscoreWs (jsLower (jsTrim n₁)), jsTrim n₁, t₁⟩ := by
      rw [e₁]
      show (s.users ++ [({ id := jsUnderscoreWs (jsLower (jsTrim n₁)),
                           name := jsTrim n₁, createdAt := t₁ } : User)]).find?
        (fun u => jsLower u.name == jsLower (jsTrim n₂)) =
        some { id := jsUnderscoreWs (jsLower (jsTrim n₁)),
               name := jsTrim n₁, createdAt := t₁ }
      rw [hp, List.find?_append, hfind]
      simp
    have e₃ := login_found t₂ n₂ (login t₁ n₁ s).2 _ hne₂ hfind₃
    refine ⟨?_, by rw [e₃], fun _ => by rw [e₁]⟩
    rw [e₁, e₂]
    simp only [Option.map_some']
    rw [hEq]

/-- The empty identity state. -/
def emptyUserState : UserState :=
  { users := [], persistedUsers := [], currentUser := none,
    persistedCurrentUserId := none, cookie := none }

/-- Witness for C5: `"Alice"` and `"  ALICE "` resolve to the same id. -/
theorem login_case_witness :
    (login 0 "Alice" emptyUserState).1.map User.id =
      (login 1 "  ALICE " emptyUserState).1.map User.id :=
  (login_case_whitespace_insensitive emptyUserState "Alice" "  ALICE " 0 1
    (by decide) (by decide)).1

/-- C10: a username that is empty or all whitespace makes `login` return
null and leave every piece of identity state — user list, current-user
marker, persisted storage, cookie — exactly as it was. -/
theorem login_blank_is_noop (s : UserState) (t : Nat) (n : String)
    (h : ∀ c ∈ n.data, isJsWs c = true) :
    login t n s = (none, s) := by
  have h1 : n.data.dropWhile isJsWs = [] := List.dropWhile_eq_nil_iff.mpr h
  have htrim : jsTrim n = "" := by
    have h2 : trimChars n.data = [] := by
      rw [trimChars, h1]
      rfl
    rw [jsTrim, h2]
  simp only [login, if_pos htrim]

/-- Witness for C10 on a whitespace-only name. -/
theorem login_blank_witness : login 0 "   " emptyUserState = (none, emptyUserState) :=
  login_blank_is_noop emptyUserState 0 "   " (by decide)

/-! ## C6/C7/C8 — the session store -/

/-- Assigning the first user-owned session (or null) to `currentSessionId`
re-establishes the ownership invariant. -/
theorem fallback_valid (u : String) (st : SessionStore) :
    currentSessionValid u
      { st with currentSessionId :=
          jsOrNull (((st.allSessions.filter (fun s => s.userId == u)).head?).map ChatSession.id) } := by
  cases hh : (st.allSessions.filter (fun s => s.userId == u)).head? with
  | none => left; simp [jsOrNull, hh]
  | some s0 =>
    have hmem := List.mem_filter.mp (mem_of_head?_eq_some hh)
    by_cases hid : s0.id = ""
    · left; simp [jsOrNull, hh, hid]
    · right
      refine ⟨s0, hmem.1, ?_, by simpa using hmem.2⟩
      simp [jsOrNull, hh, hid]

/-- C6: the UI-facing session list contains only sessions owned by the
active user (and is empty without a user), and after the user-change
revalidation the current session id is null or names a stored session of
that user; when the pre-existing current session is missing or
foreign-owned, the store falls back to the first session of the user, or
null. -/
theorem sessions_filtered_and_revalidated
    (u : String) (st : SessionStore)
    (hu : u ≠ "") (hc : st.currentSessionId ≠ some "") :
    (∀ s, s ∈ sessionsView (some u) st → s.userId = u) ∧
    sessionsView none st = [] ∧
    currentSessionValid u (revalidateCurrentSession (some u) true st) ∧
    (∀ cid, st.currentSessionId = some cid →
      (∀ s ∈ st.allSessions, s.id = cid → s.userId ≠ u) →
      (revalidateCurrentSession (some u) true st).currentSessionId =
        jsOrNull (((st.allSessions.filter (fun s => s.userId == u)).head?).map ChatSession.id)) := by
  refine ⟨?_, rfl, ?_, ?_⟩
  · intro s hs
    have := (List.mem_filter.mp hs).2
    simpa using this
  · cases hcs : st.currentSessionId with
    | none =>
      have hr : revalidateCurrentSession (some u) true st = st := by
        simp [revalidateCurrentSession, if_neg hu, hcs]
      rw [hr]; left; exact hcs
    | some cid =>
      have hcid : cid ≠ "" := fun h0 => hc (h0 ▸ hcs)
      cases hfind : st.allSessions.find? (fun s => s.id == cid) with
      | some cs =>
        by_cases hown : cs.userId = u
        · have hr : revalidateCurrentSession (some u) true st = st := by
            simp [revalidateCurrentSession, if_neg hu, hcs, if_neg hcid, hfind, hown]
          rw [hr]; right
          have hcseq : cs.id = cid := by simpa using List.find?_some hfind
          exact ⟨cs, List.mem_of_find?_eq_some hfind, by rw [hcs, hcseq], hown⟩
        · have hr : revalidateCurrentSession (some u) true st =
              { st with currentSessionId :=
                jsOrNull (((st.allSessions.filter (fun s => s.userId == u)).head?).map ChatSession.id) } := by
            simp [revalidateCurrentSession, if_neg hu, hcs, if_neg hcid, hfind, hown]
          rw [hr]; exact fallback_valid u st
      | none =>
        have hr : revalidateCurrentSession (some u) true st =
            { st with currentSessionId :=
              jsOrNull (((st.allSessions.filter (fun s => s.userId == u)).head?).map ChatSession.id) } := by
          simp [revalidateCurrentSession, if_neg hu, hcs, if_neg hcid, hfind]
        rw [hr]; exact fallback_valid u st
  · intro cid hcs hbad
    have hcid : cid ≠ "" := fun h0 => hc (h0 ▸ hcs)
    cases hfind : st.allSessions.find? (fun s => s.id == cid) with
    | some cs =>
      have hcseq : cs.id = cid := by simpa using List.find?_some hfind
      have hown : cs.userId ≠ u := hbad cs (List.mem_of_find?_eq_some hfind) hcseq
      simp [revalidateCurrentSession, if_neg hu, hcs, if_neg hcid, hfind, hown]
    | none =>
      simp [revalidateCurrentSession, if_neg hu, hcs, if_neg hcid, hfind]

/-- A session of user alice. -/
def aliceSession : ChatSession :=
  { id := "s1", userId := "alice", title := "New Chat", preview := "No messages",
    messages := [], createdAt := 0, updatedAt := 0 }

/-- A session of user bob. -/
def bobSession : ChatSession :=
  { id := "s2", userId := "bob", title := "New Chat", preview := "No messages",
    messages := [], createdAt := 0, updatedAt := 0 }

/-- Witness for C6: switching to bob while alice's session is current falls
back to bob's first session. -/
theorem sessions_filtered_witness :
    (revalidateCurrentSession (some "bob") true
      { allSessions := [aliceSession, bobSession],
        currentSessionId := some "s1" }).currentSessionId = some "s2" := by
  have h := (sessions_filtered_and_revalidated "bob"
    { allSessions := [aliceSession, bobSession], currentSessionId := some "s1" }
    (by decide) (by decide)).2.2.2 "s1" (by decide) (by decide)
  rw [h]; decide

/-- C7: if the current session id was valid before `deleteSession`, it is
valid afterwards — null or naming a surviving session of the active user —
and when the deleted session was the current one, the store selects the
first remaining session of that user's view, or null. -/
theorem delete_session_keeps_validity
    (u sid : String) (st : SessionStore)
    (hpre : currentSessionValid u st) :
    currentSessionValid u (deleteSession (some u) sid st) ∧
    (st.currentSessionId = some sid →
      (deleteSession (some u) sid st).currentSessionId =
        jsOrNull ((((sessionsView (some u) st).filter (fun s => !(s.id == sid))).head?).map ChatSession.id)) := by
  by_cases hcur : st.currentSessionId = some sid
  · have hred : deleteSession (some u) sid st =
        { allSessions := st.allSessions.filter (fun s => !(s.id == sid)),
          currentSessionId :=
            jsOrNull ((((sessionsView (some u) st).filter (fun s => !(s.id == sid))).head?).map ChatSession.id) } := by
      simp [deleteSession, hcur]
    constructor
    · rw [hred]
      cases hh : (((sessionsView (some u) st).filter (fun s => !(s.id == sid))).head?) with
      | none => left; simp [jsOrNull, hh]
      | some s0 =>
        have h1 := List.mem_filter.mp (mem_of_head?_eq_some hh)
        have h1a : s0 ∈ st.allSessions.filter (fun s => s.userId == u) := h1.1
        have h2 := List.mem_filter.mp h1a
        by_cases hid : s0.id = ""
        · left; simp [jsOrNull, hh, hid]
        · right
          refine ⟨s0, List.mem_filter.mpr ⟨h2.1, h1.2⟩, ?_, by simpa using h2.2⟩
          simp [jsOrNull, hh, hid]
    · intro _
      rw [hred]
  · have hred : deleteSession (some u) sid st =
        { st with allSessions := st.allSessions.filter (fun s => !(s.id == sid)) } := by
      simp [deleteSession, hcur]
    constructor
    · rw [hred]
      cases hpre with
      | inl h => left; exact h
      | inr h =>
        obtain ⟨s0, hmem, hcid, hown⟩ := h
        have hne : s0.id ≠ sid := fun h0 => hcur (by rw [hcid, h0])
        exact Or.inr ⟨s0, List.mem_filter.mpr ⟨hmem, by simp [hne]⟩, hcid, hown⟩
    · intro h0; exact absurd h0 hcur

/-- Witness for C7: bob deletes his current (only) session; the current id
becomes null. -/
theorem delete_session_witness :
    (deleteSession (some "bob") "s2"
      { allSessions := [aliceSession, bobSession],
        currentSessionId := some "s2" }).currentSessionId = none := by
  have h := (delete_session_keeps_validity "bob" "s2"
    { allSessions := [aliceSession, bobSession], currentSessionId := some "s2" }
    (Or.inr ⟨bobSession, by decide, by decide, by decide⟩)).2 (by decide)
  rw [h]; decide

/-- A user message with text `Hello`. -/
def msgHello : UIMessage := { role := "user", parts := [MsgPart.text "Hello"] }

/-- The store after bob creates a session. -/
def c8Store : SessionStore :=
  (createSession (some "bob") "s1" 0 { allSessions := [], currentSessionId := none }).2

/-- C8 counterexample: after updating the session's messages to `[Hello]`
and then to the empty list, the stored title is still `Hello`, not the
title recomputed from the new (empty) message list. -/
theorem update_title_not_recomputed :
    ((updateSessionMessages "s1" [] 2
        (updateSessionMessages "s1" [msgHello] 1 c8Store)).allSessions.map ChatSession.title) ≠
      [generateTitle []] := by
  decide

/-- C8 (amended): `updateMessages` recomputes the preview from the new
message list, recomputes the title from it only when the list is
non-empty — an empty list keeps the previous title — and stamps
`updatedAt` with the call's clock, which strictly increases whenever the
clock has advanced. -/
theorem update_messages_derived (st : SessionStore) (sid : String)
    (msgs : List UIMessage) (now : Nat) (session : ChatSession)
    (hid : session.id = sid) :
    (updateSessionMessages sid msgs now st).allSessions =
      st.allSessions.map (applySessionUpdate sid msgs now) ∧
    (applySessionUpdate sid msgs now session).preview = generatePreview msgs ∧
    (msgs ≠ [] → (applySessionUpdate sid msgs now session).title = generateTitle msgs) ∧
    (msgs = [] → (applySessionUpdate sid msgs now session).title = session.title) ∧
    (applySessionUpdate sid msgs now session).updatedAt = now ∧
    (session.updatedAt < now →
      session.updatedAt < (applySessionUpdate sid msgs now session).updatedAt) := by
  have happ : applySessionUpdate sid msgs now session =
      { session with
          messages := msgs,
          title := if msgs.length > 0 then generateTitle msgs else session.title,
          preview := generatePreview msgs,
          updatedAt := now } := by
    simp [applySessionUpdate, hid]
  refine ⟨rfl, by rw [happ], ?_, ?_, by rw [happ], ?_⟩
  · intro h
    rw [happ]
    show (if msgs.length > 0 then generateTitle msgs else session.title) = generateTitle msgs
    rw [if_pos (List.length_pos.mpr h)]
  · intro h
    rw [happ]
    show (if msgs.length > 0 then generateTitle msgs else session.title) = session.title
    rw [if_neg (by simp [h])]
  · intro h
    rw [happ]
    exact h

/-- Witness for C8 at a concrete update. -/
theorem update_messages_witness :
    (applySessionUpdate "s1" [msgHello] 5 aliceSession).title = generateTitle [msgHello] :=
  ((update_messages_derived { allSessions := [], currentSessionId := none }
    "s1" [msgHello] 5 aliceSession (by decide)).2.2.1) (by decide)
